import Mathlib

/-!
Verification development for the PrimePass backend configuration layer.

The repository consists of Django settings modules split by environment
(`backend/settings/base.py`, `development.py`, `production.py`), a Celery
bootstrap with a beat schedule (`backend/celery.py`), and the URL table
(`backend/urls.py`).  This file gives a shallow embedding of that layer:

* a heterogeneous `Value` type and association-list dictionaries model the
  nested Python dictionaries mutated by the overlay modules;
* `Env` models the process environment consumed through python-decouple's
  `config(...)` calls; the `config*` helpers below reproduce decouple's
  lookup / default / cast behaviour, with coercion failures surfacing as
  `Except` errors (decouple raises `ValueError` / `UndefinedValueError`);
* `resolveBase`, `resolveDevelopment` and `resolveProduction` embed the three
  settings modules statement by statement, in source order, restricted to the
  settings the environment overlays interact with; a resolution returns the
  resolved `Settings` together with the list of process-level side `Effect`s
  it performed (production's conditional `sentry_sdk.init` call);
* `beat_schedule` embeds the Celery beat schedule and `urlpatterns` the URL
  table of `urls.py`.
-/

-- ==========================================================================
-- Heterogeneous values and Python-style dictionaries (association lists)
-- ==========================================================================

/-- Heterogeneous setting value: Python str / int / bool / list-of-str /
nested dict, as used by the settings modules. -/
inductive Value where
  | str : String → Value
  | int : Int → Value
  | bool : Bool → Value
  | strList : List String → Value
  | dict : List (String × Value) → Value
  deriving Repr

/-- Dictionary lookup, `d[k]` read access. -/
def getKey : List (String × Value) → String → Option Value
  | [], _ => none
  | (k', v') :: rest, k => if k' = k then some v' else getKey rest k

/-- Python `d[k] = v`: replace in place (keeping position) when the key is
present, append otherwise. -/
def setKey : List (String × Value) → String → Value → List (String × Value)
  | [], k, v => [(k, v)]
  | (k', v') :: rest, k, v =>
    if k' = k then (k, v) :: rest else (k', v') :: setKey rest k v

/-- Python `d.update(upd)`: assign every pair of `upd` in order. -/
def updateKeys (d : List (String × Value)) (upd : List (String × Value)) :
    List (String × Value) :=
  upd.foldl (fun acc p => setKey acc p.1 p.2) d

/-- Python `d[k][sub] = v` where `d[k]` is a nested dict.  In every use below
`d[k]` is a dict built by `resolveBase`; the non-dict fallback is unreachable
(Python would raise `KeyError` / `TypeError` there). -/
def setSub (d : List (String × Value)) (k sub : String) (v : Value) :
    List (String × Value) :=
  match getKey d k with
  | some (Value.dict inner) => setKey d k (Value.dict (setKey inner sub v))
  | _ => d

/-- Python `d[k].update(upd)` where `d[k]` is a nested dict. -/
def updateSub (d : List (String × Value)) (k : String)
    (upd : List (String × Value)) : List (String × Value) :=
  match getKey d k with
  | some (Value.dict inner) => setKey d k (Value.dict (updateKeys inner upd))
  | _ => d

-- ==========================================================================
-- Environment bindings and python-decouple `config(...)` semantics
-- ==========================================================================

/-- The process environment: external key-value bindings. -/
abbrev Env := String → Option String

/-- ASCII lower-casing of one character (Python `str.lower` on the ASCII
strings appearing here). -/
def lowerChar (c : Char) : Char :=
  if 'A' ≤ c ∧ c ≤ 'Z' then Char.ofNat (c.toNat + 32) else c

/-- Python `str.lower()` (ASCII). -/
def strLower (s : String) : String := String.mk (s.data.map lowerChar)

/-- Python `str.isspace` on the whitespace characters relevant here. -/
def isSpace (c : Char) : Bool := c = ' ' ∨ c = '\t' ∨ c = '\n' ∨ c = '\r'

/-- Drop leading whitespace characters. -/
def dropLeading : List Char → List Char
  | [] => []
  | c :: cs => if isSpace c then dropLeading cs else c :: cs

/-- Python `str.strip()`. -/
def strTrim (s : String) : String :=
  String.mk ((dropLeading (dropLeading s.data.reverse).reverse))

/-- One comma-split pass over the character list (Python `str.split(',')`). -/
def splitAux : List Char → List Char → List String
  | [], acc => [String.mk acc.reverse]
  | c :: cs, acc =>
    if c = ',' then String.mk acc.reverse :: splitAux cs []
    else splitAux cs (c :: acc)

/-- The list cast used throughout the settings:
`lambda v: [s.strip() for s in v.split(',')]`. -/
def splitComma (s : String) : List String :=
  (splitAux s.data []).map (fun t => strTrim t)

/-- Decimal digit value of a character. -/
def digitVal (c : Char) : Option Nat :=
  if '0' ≤ c ∧ c ≤ '9' then some (c.toNat - '0'.toNat) else none

/-- Fold a digit string into a number; `none` on a non-digit or on the empty
string (the accumulator starts as `none`). -/
def digitsVal : List Char → Option Nat → Option Nat
  | [], acc => acc
  | c :: cs, acc =>
    match digitVal c with
    | some d => digitsVal cs (some ((acc.getD 0) * 10 + d))
    | none => none

/-- Python `int(s)`: optional surrounding whitespace, optional sign, decimal
digits; anything else raises `ValueError` (here: `none`). -/
def castInt (s : String) : Option Int :=
  match (strTrim s).data with
  | '-' :: rest => (digitsVal rest none).map (fun n => -(n : Int))
  | '+' :: rest => (digitsVal rest none).map (fun n => (n : Int))
  | rest => (digitsVal rest none).map (fun n => (n : Int))

/-- python-decouple boolean cast: the value's lower-casing must be one of the
recognised literals, else `ValueError` (here: `none`). -/
def castBool (s : String) : Option Bool :=
  let l := strLower s
  if l = "1" ∨ l = "yes" ∨ l = "true" ∨ l = "on" then some true
  else if l = "0" ∨ l = "no" ∨ l = "false" ∨ l = "off" ∨ l = "" then some false
  else none

/-- Load-time configuration failures (decouple's `UndefinedValueError`, a
cast `ValueError`, and Python's failure to import an unknown settings
module). -/
inductive ConfigError where
  | undefinedValue (key : String)
  | coercionFailure (key : String)
  | moduleNotFound (modname : String)
  deriving DecidableEq, Repr

/-- `config(key, default=dflt)` — plain string, never fails. -/
def configStrD (env : Env) (key dflt : String) : String :=
  (env key).getD dflt

/-- `config(key)` with no default — absent binding is a load-time error. -/
def configStrReq (env : Env) (key : String) : Except ConfigError String :=
  match env key with
  | some v => Except.ok v
  | none => Except.error (ConfigError.undefinedValue key)

/-- `config(key, default=dflt, cast=bool)`. -/
def configBoolD (env : Env) (key : String) (dflt : Bool) :
    Except ConfigError Bool :=
  match env key with
  | some v =>
    match castBool v with
    | some b => Except.ok b
    | none => Except.error (ConfigError.coercionFailure key)
  | none => Except.ok dflt

/-- `config(key, default=dflt, cast=int)`. -/
def configIntD (env : Env) (key : String) (dflt : Int) :
    Except ConfigError Int :=
  match env key with
  | some v =>
    match castInt v with
    | some n => Except.ok n
    | none => Except.error (ConfigError.coercionFailure key)
  | none => Except.ok dflt

/-- `config(key, default=dflt, cast=comma-split)`; the cast itself cannot
fail. -/
def configListD (env : Env) (key dflt : String) : List String :=
  splitComma ((env key).getD dflt)

/-- `config(key, cast=comma-split)` with no default. -/
def configListReq (env : Env) (key : String) :
    Except ConfigError (List String) :=
  (configStrReq env key).map splitComma

-- ==========================================================================
-- The configuration set, process state, overlays and side effects
-- ==========================================================================

/-- Process-level side effects a settings module may perform while it is
being resolved.  Production's module conditionally calls `sentry_sdk.init`. -/
inductive Effect where
  | sentryInit (dsn : String)
  deriving DecidableEq, Repr

/-- The slice of the resolved configuration set the environment overlays
interact with.  Settings the overlays never touch (JWT parameters, logging
sinks, spectacular metadata, …) are omitted; `extra` carries the keys an
overlay adds beyond the base set (SILKY_*, SECURE_*, AWS_*, SENTRY_DSN, …). -/
structure Settings where
  SECRET_KEY : String
  DEBUG : Bool
  ALLOWED_HOSTS : List String
  INSTALLED_APPS : List String
  MIDDLEWARE : List String
  DATABASES_default : List (String × Value)
  CACHES_default : List (String × Value)
  SESSION_COOKIE_AGE : Int
  CORS_ALLOWED_ORIGINS : List String
  CORS_ALLOW_CREDENTIALS : Bool
  CORS_ALLOW_ALL_ORIGINS : Bool
  STATIC_URL : String
  MEDIA_URL : String
  EMAIL_BACKEND : String
  extra : List (String × Value)

/-- Process facts that are not environment bindings but that
`development.py` reads: whether `/.dockerenv` exists on the filesystem
(`os.path.exists`), and whether the process runs under a test harness
(`'test' in sys.argv or 'pytest' in sys.modules`). -/
structure ProcState where
  dockerenvExists : Bool
  testMode : Bool
  deriving DecidableEq, Repr

/-- The recognised environment overlays. -/
inductive Overlay where
  | development
  | production
  deriving DecidableEq, Repr

/-- base.py `DJANGO_APPS`. -/
def DJANGO_APPS : List String :=
  ["django.contrib.admin", "django.contrib.auth", "django.contrib.contenttypes",
   "django.contrib.sessions", "django.contrib.messages",
   "django.contrib.staticfiles", "django.contrib.sites"]

/-- base.py `THIRD_PARTY_APPS` (the allauth entries are commented out in the
source). -/
def THIRD_PARTY_APPS : List String :=
  ["rest_framework", "rest_framework_simplejwt", "drf_spectacular",
   "corsheaders", "django_filters", "phonenumber_field", "django_countries",
   "cachalot", "channels", "django_celery_beat", "django_celery_results",
   "health_check", "health_check.db", "health_check.cache",
   "health_check.storage", "axes", "django_ratelimit"]

/-- base.py `LOCAL_APPS` (empty). -/
def LOCAL_APPS : List String := []

/-- base.py `MIDDLEWARE`. -/
def baseMiddleware : List String :=
  ["django.middleware.security.SecurityMiddleware",
   "whitenoise.middleware.WhiteNoiseMiddleware",
   "corsheaders.middleware.CorsMiddleware",
   "django.contrib.sessions.middleware.SessionMiddleware",
   "django.middleware.common.CommonMiddleware",
   "django.middleware.csrf.CsrfViewMiddleware",
   "django.contrib.auth.middleware.AuthenticationMiddleware",
   "django.contrib.messages.middleware.MessageMiddleware",
   "django.middleware.clickjacking.XFrameOptionsMiddleware",
   "axes.middleware.AxesMiddleware"]

-- ==========================================================================
-- base.py
-- ==========================================================================

/-- Embedding of `backend/settings/base.py`: every field is resolved exactly
as the corresponding `config(...)` call; the fallible casts are sequenced in
source order (DEBUG, then CACHES' TIMEOUT, then SESSION_COOKIE_AGE, then the
CORS booleans). -/
def resolveBase (env : Env) : Except ConfigError Settings := do
  let debug ← configBoolD env "DEBUG" false
  let cacheTtl ← configIntD env "CACHE_TTL" 3600
  let sessionAge ← configIntD env "SESSION_CACHE_TTL" 86400
  let corsCred ← configBoolD env "CORS_ALLOW_CREDENTIALS" true
  let corsAll ← configBoolD env "CORS_ALLOW_ALL_ORIGINS" false
  pure
    { SECRET_KEY :=
        configStrD env "SECRET_KEY" "your-super-secret-key-change-this-in-production",
      DEBUG := debug,
      ALLOWED_HOSTS := configListD env "ALLOWED_HOSTS" "localhost,127.0.0.1",
      INSTALLED_APPS := DJANGO_APPS ++ THIRD_PARTY_APPS ++ LOCAL_APPS,
      MIDDLEWARE := baseMiddleware,
      DATABASES_default :=
        [("ENGINE", Value.str "django.db.backends.postgresql"),
         ("NAME", Value.str (configStrD env "DATABASE_NAME" "primepass_db")),
         ("USER", Value.str (configStrD env "DATABASE_USER" "primepass_user")),
         ("PASSWORD", Value.str (configStrD env "DATABASE_PASSWORD" "primepass_password")),
         ("HOST", Value.str (configStrD env "DATABASE_HOST" "localhost")),
         ("PORT", Value.str (configStrD env "DATABASE_PORT" "5432")),
         ("OPTIONS", Value.dict [("connect_timeout", Value.int 10)])],
      CACHES_default :=
        [("BACKEND", Value.str "django_redis.cache.RedisCache"),
         ("LOCATION", Value.str (configStrD env "REDIS_URL" "redis://localhost:6379/0")),
         ("OPTIONS", Value.dict
            [("CLIENT_CLASS", Value.str "django_redis.client.DefaultClient"),
             ("CONNECTION_POOL_KWARGS", Value.dict
                [("max_connections", Value.int 50),
                 ("retry_on_timeout", Value.bool true)]),
             ("SERIALIZER", Value.str "django_redis.serializers.json.JSONSerializer"),
             ("COMPRESSOR", Value.str "django_redis.compressors.zlib.ZlibCompressor")]),
         ("KEY_PREFIX", Value.str "primepass"),
         ("TIMEOUT", Value.int cacheTtl)],
      SESSION_COOKIE_AGE := sessionAge,
      CORS_ALLOWED_ORIGINS :=
        configListD env "CORS_ALLOWED_ORIGINS"
          "http://localhost:3000,http://127.0.0.1:3000",
      CORS_ALLOW_CREDENTIALS := corsCred,
      CORS_ALLOW_ALL_ORIGINS := corsAll,
      STATIC_URL := configStrD env "STATIC_URL" "/static/",
      MEDIA_URL := configStrD env "MEDIA_URL" "/media/",
      EMAIL_BACKEND :=
        configStrD env "EMAIL_BACKEND" "django.core.mail.backends.console.EmailBackend",
      extra := [] }

-- ==========================================================================
-- development.py
-- ==========================================================================

/-- The unconditional head of `development.py`: DEBUG / ALLOWED_HOSTS
assignments, `INSTALLED_APPS +=` and the middleware prepend. -/
def devHead (s : Settings) : Settings :=
  { s with
    DEBUG := true,
    ALLOWED_HOSTS := ["localhost", "127.0.0.1", "0.0.0.0", "backend"],
    INSTALLED_APPS := s.INSTALLED_APPS ++ ["django_extensions", "debug_toolbar", "silk"],
    MIDDLEWARE :=
      (["debug_toolbar.middleware.DebugToolbarMiddleware",
        "silk.middleware.SilkyMiddleware"] ++ s.MIDDLEWARE) }

/-- Embedding of `backend/settings/development.py`, applied after
`resolveBase` (the module begins with `from .base import *`).  Statements are
sequenced in source order.  `development.py` performs no process-mutating
side effect, hence the empty effect list. -/
def resolveDevelopment (env : Env) (ps : ProcState) :
    Except ConfigError (Settings × List Effect) := do
  let base ← resolveBase env
  let s := devHead base
  let silky ← configBoolD env "ENABLE_SILK_PROFILING" false
  let s := { s with extra := setKey s.extra "SILKY_PYTHON_PROFILER" (Value.bool silky) }
  let usePgb ← configBoolD env "USE_PGBOUNCER" false
  let s :=
    if usePgb then
      { s with DATABASES_default :=
          (setKey
            (setKey s.DATABASES_default "HOST"
              (Value.str (configStrD env "DATABASE_HOST" "pgbouncer")))
            "PORT" (Value.str (configStrD env "PGBOUNCER_PORT" "5432"))) }
    else s
  let dockerFlag ← configBoolD env "DOCKER_ENV" false
  let s :=
    if ps.dockerenvExists || dockerFlag then
      { s with DATABASES_default :=
          (setKey (setKey s.DATABASES_default "HOST" (Value.str "pgbouncer"))
            "PORT" (Value.str "6432")) }
    else s
  let s := { s with CACHES_default :=
      (setSub s.CACHES_default "OPTIONS" "IGNORE_EXCEPTIONS" (Value.bool true)) }
  let s := { s with EMAIL_BACKEND := "django.core.mail.backends.console.EmailBackend" }
  let s := { s with
    CORS_ALLOW_ALL_ORIGINS := true,
    CORS_ALLOWED_ORIGINS :=
      (["http://localhost:3000", "http://127.0.0.1:3000",
        "http://localhost:5173", "http://127.0.0.1:5173"]) }
  let eager ← configBoolD env "CELERY_EAGER" false
  let s := { s with extra := setKey s.extra "CELERY_TASK_ALWAYS_EAGER" (Value.bool eager) }
  let s :=
    if ps.testMode then
      { s with
        DATABASES_default :=
          ([("ENGINE", Value.str "django.db.backends.sqlite3"),
            ("NAME", Value.str ":memory:")]),
        CACHES_default :=
          ([("BACKEND", Value.str "django.core.cache.backends.dummy.DummyCache")]),
        extra := setKey s.extra "CELERY_TASK_ALWAYS_EAGER" (Value.bool true) }
    else s
  pure (s, [])

-- ==========================================================================
-- production.py
-- ==========================================================================

/-- The `if config('USE_S3', default=False, cast=bool):` block of
`production.py`: the three credential bindings have no default; the custom
domain falls back to the bucket domain when absent or empty (Python `or` on
a falsy value). -/
def prodS3 (env : Env) (s : Settings) : Except ConfigError Settings := do
  let useS3 ← configBoolD env "USE_S3" false
  if useS3 then
    let awsKey ← configStrReq env "AWS_ACCESS_KEY_ID"
    let awsSecret ← configStrReq env "AWS_SECRET_ACCESS_KEY"
    let bucket ← configStrReq env "AWS_STORAGE_BUCKET_NAME"
    let region := configStrD env "AWS_S3_REGION_NAME" "us-east-1"
    let host :=
      match env "AWS_S3_CUSTOM_DOMAIN" with
      | some c => if c = "" then bucket ++ ".s3.amazonaws.com" else c
      | none => bucket ++ ".s3.amazonaws.com"
    pure
      { s with
        extra :=
          (updateKeys s.extra
            [("AWS_ACCESS_KEY_ID", Value.str awsKey),
             ("AWS_SECRET_ACCESS_KEY", Value.str awsSecret),
             ("AWS_STORAGE_BUCKET_NAME", Value.str bucket),
             ("AWS_S3_REGION_NAME", Value.str region)]),
        STATIC_URL := "https://" ++ host ++ "/static/",
        MEDIA_URL := "https://" ++ host ++ "/media/" }
  else
    pure s

/-- Embedding of `backend/settings/production.py`, applied after
`resolveBase`.  Statements are sequenced in source order; the conditional
`sentry_sdk.init(...)` call (gated on a non-empty `SENTRY_DSN` binding) is
recorded as an `Effect` of the resolution. -/
def resolveProduction (env : Env) :
    Except ConfigError (Settings × List Effect) := do
  let base ← resolveBase env
  let s := { base with DEBUG := false }
  let allowedHosts ← configListReq env "ALLOWED_HOSTS"
  let s := { s with ALLOWED_HOSTS := allowedHosts }
  let sslRedirect ← configBoolD env "SECURE_SSL_REDIRECT" true
  let hstsSeconds ← configIntD env "SECURE_HSTS_SECONDS" 31536000
  let hstsSub ← configBoolD env "SECURE_HSTS_INCLUDE_SUBDOMAINS" true
  let hstsPre ← configBoolD env "SECURE_HSTS_PRELOAD" true
  let s := { s with extra :=
      (updateKeys s.extra
        [("SECURE_SSL_REDIRECT", Value.bool sslRedirect),
         ("SECURE_HSTS_SECONDS", Value.int hstsSeconds),
         ("SECURE_HSTS_INCLUDE_SUBDOMAINS", Value.bool hstsSub),
         ("SECURE_HSTS_PRELOAD", Value.bool hstsPre)]) }
  let dbHost ← configStrReq env "DATABASE_HOST"
  let s := { s with DATABASES_default :=
      (setKey
        (setKey s.DATABASES_default "HOST" (Value.str dbHost))
        "PORT" (Value.str (configStrD env "PGBOUNCER_PORT" "6432"))) }
  let s := { s with DATABASES_default :=
      (updateSub s.DATABASES_default "OPTIONS"
        [("sslmode", Value.str "require"),
         ("connect_timeout", Value.int 10),
         ("options", Value.str "-c default_transaction_isolation=read_committed")]) }
  let s := { s with DATABASES_default :=
      (setKey s.DATABASES_default "CONN_MAX_AGE" (Value.int 60)) }
  let s := { s with CACHES_default :=
      (updateSub s.CACHES_default "OPTIONS"
        [("CONNECTION_POOL_KWARGS", Value.dict
            [("max_connections", Value.int 100),
             ("retry_on_timeout", Value.bool true),
             ("socket_keepalive", Value.bool true),
             ("socket_keepalive_options", Value.dict [])]),
         ("IGNORE_EXCEPTIONS", Value.bool false)]) }
  let s ← prodS3 env s
  let s := { s with EMAIL_BACKEND := "anymail.backends.sendgrid.EmailBackend" }
  let sentryDsn := configStrD env "SENTRY_DSN" ""
  let effects := if sentryDsn = "" then ([] : List Effect)
    else [Effect.sentryInit sentryDsn]
  let s := { s with extra := setKey s.extra "SENTRY_DSN" (Value.str sentryDsn) }
  let s := { s with CORS_ALLOW_ALL_ORIGINS := false }
  let corsOrigins ← configListReq env "CORS_ALLOWED_ORIGINS"
  let s := { s with CORS_ALLOWED_ORIGINS := corsOrigins }
  let s := { s with DATABASES_default :=
      (updateSub s.DATABASES_default "OPTIONS"
        [("MAX_CONNS", Value.int 20),
         ("OPTIONS", Value.dict
            [("MAX_CONNS", Value.int 20),
             ("autocommit", Value.bool true)])]) }
  let s := { s with MIDDLEWARE :=
      (s.MIDDLEWARE.take 1
        ++ ["django.middleware.cache.UpdateCacheMiddleware"]
        ++ s.MIDDLEWARE.drop 1
        ++ ["django.middleware.cache.FetchFromCacheMiddleware"]) }
  pure (s, effects)

/-- Configuration resolution for a recognised overlay: load the base set,
then apply the overlay module (the production module ignores the process
state). -/
def resolveOverlay (o : Overlay) (env : Env) (ps : ProcState) :
    Except ConfigError (Settings × List Effect) :=
  match o with
  | Overlay.development => resolveDevelopment env ps
  | Overlay.production => resolveProduction env

-- ==========================================================================
-- celery.py: selector defaulting and the beat schedule
-- ==========================================================================

/-- One entry of the Celery beat schedule: key, optional `task` reference,
`schedule` in seconds (the source writes float literals `3600.0`, …, all with
zero fractional part, embedded here as exact rationals). -/
structure PeriodicJobEntry where
  jobName : String
  task : Option String
  schedule : ℚ
  deriving DecidableEq, Repr

/-- celery.py `app.conf.beat_schedule`.  The `task` line of
`cleanup-expired-tokens` is commented out in the source. -/
def beat_schedule : List PeriodicJobEntry :=
  [⟨"cleanup-expired-tokens", none, 3600⟩,
   ⟨"send-event-reminders", some "apps.events.tasks.send_event_reminders", 1800⟩,
   ⟨"update-event-analytics", some "apps.analytics.tasks.update_event_analytics", 900⟩,
   ⟨"cleanup-old-notifications", some "apps.notifications.tasks.cleanup_old_notifications", 86400⟩]

-- ==========================================================================
-- urls.py: the route table
-- ==========================================================================

/-- One route: path pattern, bound handler reference, optional route name. -/
structure RouteEntry where
  pat : String
  handler : String
  rname : Option String
  deriving DecidableEq, Repr

/-- urls.py `api_v1_patterns`. -/
def api_v1_patterns : List RouteEntry :=
  [⟨"auth/token/", "rest_framework_simplejwt.views.TokenObtainPairView", some "token_obtain_pair"⟩,
   ⟨"auth/token/refresh/", "rest_framework_simplejwt.views.TokenRefreshView", some "token_refresh"⟩,
   ⟨"auth/token/verify/", "rest_framework_simplejwt.views.TokenVerifyView", some "token_verify"⟩,
   ⟨"health/", "health_check.urls", none⟩]

/-- Django `include(...)` flattened: nested routes viewed with their full
path prefix. -/
def includeAt (p : String) (rs : List RouteEntry) : List RouteEntry :=
  rs.map (fun r => ⟨p ++ r.pat, r.handler, r.rname⟩)

/-- urls.py `urlpatterns` before the `if settings.DEBUG:` block. -/
def mainUrlpatterns : List RouteEntry :=
  [⟨"admin/", "django.contrib.admin.site.urls", none⟩]
    ++ includeAt "api/v1/" api_v1_patterns
    ++ [⟨"api/schema/", "drf_spectacular.views.SpectacularAPIView", some "schema"⟩,
        ⟨"api/docs/", "drf_spectacular.views.SpectacularSwaggerView", some "swagger-ui"⟩,
        ⟨"api/redoc/", "drf_spectacular.views.SpectacularRedocView", some "redoc"⟩]

/-- `django.conf.urls.static.static(u, document_root=...)` as called under
`settings.DEBUG`: a serving route for the given URL prefix (external Django
helper, modelled as the one route it contributes). -/
def staticRoutes (u : String) : List RouteEntry :=
  [⟨u, "django.views.static.serve", none⟩]

/-- urls.py: the assembled route table.  The debug-toolbar, silk and
static/media serving routes are appended at assembly time exactly when the
resolved configuration has `DEBUG` set. -/
def urlpatterns (s : Settings) : List RouteEntry :=
  mainUrlpatterns ++
    (if s.DEBUG then
      [⟨"__debug__/", "debug_toolbar.urls", none⟩,
       ⟨"silk/", "silk.urls", some "silk"⟩]
        ++ staticRoutes s.MEDIA_URL ++ staticRoutes s.STATIC_URL
    else [])

-- ==========================================================================
-- Concrete environments and process states used by witnesses
-- ==========================================================================

/-- The empty environment: every binding absent. -/
def envEmpty : Env := fun _ => none

/-- A minimal production environment: exactly the three bindings production
requires, nothing else. -/
def envProd : Env := fun k =>
  if k = "ALLOWED_HOSTS" then some "example.com"
  else if k = "CORS_ALLOWED_ORIGINS" then some "https://app.example.com"
  else if k = "DATABASE_HOST" then some "db.internal"
  else none

/-- `envProd` plus a Sentry DSN. -/
def envProdSentry : Env := fun k =>
  if k = "SENTRY_DSN" then some "https://key@sentry.example/1" else envProd k

/-- `envProd` plus `USE_S3=True` but with no AWS credential bindings. -/
def envS3Missing : Env := fun k =>
  if k = "USE_S3" then some "True" else envProd k

/-- An environment with a malformed `CACHE_TTL`. -/
def envBadTtl : Env := fun k =>
  if k = "CACHE_TTL" then some "notanumber" else none

/-- An environment that differs from `envEmpty` only on a key no
`config(...)` call reads. -/
def envUnrelated : Env := fun k =>
  if k = "SOME_UNRELATED_KEY" then some "x" else none

/-- Default process state: not in Docker, not under a test harness. -/
def ps0 : ProcState := ⟨false, false⟩

/-- The environment-binding keys configuration resolution reads (across
base.py, development.py and production.py as embedded above). -/
def bindingKeys : List String :=
  ["SECRET_KEY", "DEBUG", "ALLOWED_HOSTS", "DATABASE_NAME", "DATABASE_USER",
   "DATABASE_PASSWORD", "DATABASE_HOST", "DATABASE_PORT", "REDIS_URL",
   "CACHE_TTL", "SESSION_CACHE_TTL", "CORS_ALLOWED_ORIGINS",
   "CORS_ALLOW_CREDENTIALS", "CORS_ALLOW_ALL_ORIGINS", "STATIC_URL",
   "MEDIA_URL", "EMAIL_BACKEND", "ENABLE_SILK_PROFILING", "USE_PGBOUNCER",
   "PGBOUNCER_PORT", "DOCKER_ENV", "CELERY_EAGER", "SECURE_SSL_REDIRECT",
   "SECURE_HSTS_SECONDS", "SECURE_HSTS_INCLUDE_SUBDOMAINS",
   "SECURE_HSTS_PRELOAD", "USE_S3", "AWS_ACCESS_KEY_ID",
   "AWS_SECRET_ACCESS_KEY", "AWS_STORAGE_BUCKET_NAME", "AWS_S3_REGION_NAME",
   "AWS_S3_CUSTOM_DOMAIN", "SENTRY_DSN"]

-- ==========================================================================
-- Helper lemmas
-- ==========================================================================

/-- The OPTIONS sub-dictionary of the resolved default cache. -/
def cacheOptions (s : Settings) : List (String × Value) :=
  match getKey s.CACHES_default "OPTIONS" with
  | some (Value.dict d) => d
  | _ => []

theorem bind_eq_ok {α β : Type} {x : Except ConfigError α}
    {f : α → Except ConfigError β} {b : β} :
    x >>= f = Except.ok b ↔ ∃ a, x = Except.ok a ∧ f a = Except.ok b := by
  cases x <;> simp [Bind.bind, Except.bind]

theorem pure_eq_ok {α : Type} (a : α) :
    (pure a : Except ConfigError α) = Except.ok a := rfl

theorem ok_bind {α β : Type} (a : α) (f : α → Except ConfigError β) :
    (Except.ok a : Except ConfigError α) >>= f = f a := rfl

theorem exists_error_bind {α β : Type} (x : Except ConfigError α)
    (f : α → Except ConfigError β) (h : ∀ a, ∃ e, f a = Except.error e) :
    ∃ e, x >>= f = Except.error e := by
  cases x with
  | error e => exact ⟨e, rfl⟩
  | ok a => exact h a

theorem exists_error_bind_left {α β : Type} {x : Except ConfigError α}
    (f : α → Except ConfigError β) (h : ∃ e, x = Except.error e) :
    ∃ e, x >>= f = Except.error e := by
  obtain ⟨e, he⟩ := h
  exact ⟨e, by rw [he]; rfl⟩

-- ==========================================================================
-- C7
-- ==========================================================================

/-- C7: the periodic job table has exactly the four entries
cleanup-expired-tokens, send-event-reminders, update-event-analytics and
cleanup-old-notifications, with cadences 3600, 1800, 900 and 86400 seconds
respectively, every cadence a positive integer number of seconds, and
exactly the cleanup-expired-tokens entry has no bound handler reference. -/
theorem C7_beat_schedule_entries :
    beat_schedule.map PeriodicJobEntry.jobName =
      ["cleanup-expired-tokens", "send-event-reminders",
       "update-event-analytics", "cleanup-old-notifications"] ∧
    beat_schedule.map PeriodicJobEntry.schedule = [3600, 1800, 900, 86400] ∧
    beat_schedule.all
      (fun j => j.schedule.den == 1 && decide (0 < j.schedule.num)) = true ∧
    (beat_schedule.filter (fun j => j.task.isNone)).map
      PeriodicJobEntry.jobName = ["cleanup-expired-tokens"] := by
  refine ⟨by decide, by decide, by decide, by decide⟩

-- ==========================================================================
-- C3 (corrected): the Celery entry point silently defaults the selector
-- ==========================================================================

theorem castInt_notanumber : castInt "notanumber" = none := rfl

/-- C8: if the CACHE_TTL binding is present but not coercible to an integer,
resolution under either overlay aborts with a load-time error and yields no
configuration set. -/
theorem C8_cache_ttl_coercion :
    ∀ (env : Env) (o : Overlay) (ps : ProcState) (v : String),
      env "CACHE_TTL" = some v → castInt v = none →
      ∃ e, resolveOverlay o env ps = Except.error e := by
  intro env o ps v hv hcast
  have hbase : ∃ e, resolveBase env = Except.error e := by
    simp only [resolveBase]
    apply exists_error_bind
    intro debug
    have hct : configIntD env "CACHE_TTL" 3600 =
        Except.error (ConfigError.coercionFailure "CACHE_TTL") := by
      simp [configIntD, hv, hcast]
    rw [hct]
    exact ⟨_, rfl⟩
  cases o with
  | development =>
    simp only [resolveOverlay, resolveDevelopment]
    exact exists_error_bind_left _ hbase
  | production =>
    simp only [resolveOverlay, resolveProduction]
    exact exists_error_bind_left _ hbase

/-- Witness for C8_cache_ttl_coercion: the concrete environment with
`CACHE_TTL=notanumber` resolves to an error under the development overlay. -/
theorem C8_cache_ttl_coercion_witness :
    envBadTtl "CACHE_TTL" = some "notanumber" ∧
    castInt "notanumber" = none ∧
    (resolveOverlay Overlay.development envBadTtl ps0).isOk = false := by
  refine ⟨rfl, rfl, ?_⟩
  obtain ⟨e, he⟩ :=
    C8_cache_ttl_coercion envBadTtl Overlay.development ps0 "notanumber" rfl rfl
  rw [he]
  rfl

-- ==========================================================================
-- Shared facts about successful resolutions
-- ==========================================================================

/-- Any successful development resolution forces DEBUG, the CORS flags and
the four-origin list, and performs no side effect. -/
theorem dev_resolved (env : Env) (ps : ProcState) (r : Settings × List Effect)
    (h : resolveDevelopment env ps = Except.ok r) :
    r.1.DEBUG = true ∧ r.1.CORS_ALLOW_ALL_ORIGINS = true ∧
    r.1.CORS_ALLOWED_ORIGINS =
      ["http://localhost:3000", "http://127.0.0.1:3000",
       "http://localhost:5173", "http://127.0.0.1:5173"] ∧
    r.2 = ([] : List Effect) := by
  simp only [resolveDevelopment, resolveBase, bind_eq_ok, pure_eq_ok,
    Except.ok.injEq] at h
  obtain ⟨base, ⟨debug, hdebug, ct, hct, sa, hsa, cc, hcc, ca, hca, hbase⟩,
    silky, hsilky, usePgb, hpgb, dockerFlag, hdock, eager, heager, hr⟩ := h
  subst hbase
  subst hr
  refine ⟨?_, ?_, ?_, ?_⟩ <;> (split_ifs <;> rfl)

/-- A non-test development resolution merges the overlay's
IGNORE_EXCEPTIONS flag into the cache options while keeping the base
sub-keys. -/
theorem dev_cacheOptions (env : Env) (d : Bool) (r : Settings × List Effect)
    (h : resolveDevelopment env ⟨d, false⟩ = Except.ok r) :
    getKey (cacheOptions r.1) "CLIENT_CLASS" =
      some (Value.str "django_redis.client.DefaultClient") ∧
    getKey (cacheOptions r.1) "SERIALIZER" =
      some (Value.str "django_redis.serializers.json.JSONSerializer") ∧
    getKey (cacheOptions r.1) "COMPRESSOR" =
      some (Value.str "django_redis.compressors.zlib.ZlibCompressor") ∧
    getKey (cacheOptions r.1) "IGNORE_EXCEPTIONS" = some (Value.bool true) := by
  simp only [resolveDevelopment, resolveBase, bind_eq_ok, pure_eq_ok,
    Except.ok.injEq] at h
  obtain ⟨base, ⟨debug, hdebug, ct, hct, sa, hsa, cc, hcc, ca, hca, hbase⟩,
    silky, hsilky, usePgb, hpgb, dockerFlag, hdock, eager, heager, hr⟩ := h
  subst hbase
  subst hr
  cases usePgb <;> cases dockerFlag <;> cases d <;> exact ⟨rfl, rfl, rfl, rfl⟩

/-- The S3 block of production only touches the storage-related settings. -/
theorem prodS3_fields (env : Env) (s s' : Settings)
    (h : prodS3 env s = Except.ok s') :
    s'.DEBUG = s.DEBUG ∧ s'.CACHES_default = s.CACHES_default := by
  simp only [prodS3, bind_eq_ok, pure_eq_ok, Except.ok.injEq] at h
  obtain ⟨useS3, hu, h⟩ := h
  cases useS3 with
  | false =>
    simp only [Bool.false_eq_true, if_false, pure_eq_ok, Except.ok.injEq] at h
    subst h
    exact ⟨rfl, rfl⟩
  | true =>
    simp only [if_true, bind_eq_ok, pure_eq_ok, Except.ok.injEq] at h
    obtain ⟨awsKey, hk, awsSecret, hs2, bucket, hb, hrec⟩ := h
    subst hrec
    exact ⟨rfl, rfl⟩

/-- Any successful production resolution forces DEBUG off and the CORS flag
off, performs the Sentry initialisation exactly when the SENTRY_DSN binding
is non-empty, and merges the production cache options over the base
sub-keys. -/
theorem prod_resolved (env : Env) (r : Settings × List Effect)
    (h : resolveProduction env = Except.ok r) :
    r.1.DEBUG = false ∧ r.1.CORS_ALLOW_ALL_ORIGINS = false ∧
    r.2 = (if configStrD env "SENTRY_DSN" "" = "" then ([] : List Effect)
      else [Effect.sentryInit (configStrD env "SENTRY_DSN" "")]) ∧
    getKey (cacheOptions r.1) "CLIENT_CLASS" =
      some (Value.str "django_redis.client.DefaultClient") ∧
    getKey (cacheOptions r.1) "SERIALIZER" =
      some (Value.str "django_redis.serializers.json.JSONSerializer") ∧
    getKey (cacheOptions r.1) "COMPRESSOR" =
      some (Value.str "django_redis.compressors.zlib.ZlibCompressor") ∧
    getKey (cacheOptions r.1) "IGNORE_EXCEPTIONS" = some (Value.bool false) := by
  simp only [resolveProduction, resolveBase, bind_eq_ok, pure_eq_ok,
    Except.ok.injEq] at h
  obtain ⟨base, ⟨debug, hdebug, ct, hct, sa, hsa, cc, hcc, ca, hca, hbase⟩,
    ah, hah, ssl, hssl, hsec, hhsec, hsub, hhsub, hpre, hhpre, dbh, hdbh,
    s3, hs3, co, hco, hr⟩ := h
  subst hbase
  subst hr
  have hf := prodS3_fields env _ _ hs3
  refine ⟨?_, rfl, rfl, ?_, ?_, ?_, ?_⟩
  · show s3.DEBUG = false
    rw [hf.1]
  · show getKey (cacheOptions s3) "CLIENT_CLASS" = _
    simp only [cacheOptions, hf.2]
    rfl
  · show getKey (cacheOptions s3) "SERIALIZER" = _
    simp only [cacheOptions, hf.2]
    rfl
  · show getKey (cacheOptions s3) "COMPRESSOR" = _
    simp only [cacheOptions, hf.2]
    rfl
  · show getKey (cacheOptions s3) "IGNORE_EXCEPTIONS" = _
    simp only [cacheOptions, hf.2]
    rfl

/-- The handlers of the assembled route table: the base handlers, plus the
debug handlers exactly when DEBUG is set. -/
theorem urlpatterns_handlers (s : Settings) :
    (urlpatterns s).map RouteEntry.handler =
      mainUrlpatterns.map RouteEntry.handler ++
        (if s.DEBUG then
          ["debug_toolbar.urls", "silk.urls", "django.views.static.serve",
           "django.views.static.serve"]
         else []) := by
  cases hd : s.DEBUG <;> simp [urlpatterns, staticRoutes, hd]

-- ==========================================================================
-- C1
-- ==========================================================================

/-- C1: resolving with the development overlay yields DEBUG = true when no
DEBUG binding is present, and resolving with the production overlay yields
DEBUG = false regardless of any DEBUG binding value. -/
theorem C1_debug_flag :
    (∀ (env : Env) (ps : ProcState) (r : Settings × List Effect),
        env "DEBUG" = none →
        resolveOverlay Overlay.development env ps = Except.ok r →
        r.1.DEBUG = true) ∧
    (∀ (env : Env) (ps : ProcState) (r : Settings × List Effect),
        resolveOverlay Overlay.production env ps = Except.ok r →
        r.1.DEBUG = false) := by
  constructor
  · intro env ps r _ h
    exact (dev_resolved env ps r h).1
  · intro env ps r h
    exact (prod_resolved env r h).1

/-- Witness for C1_debug_flag at the empty environment (development) and a
minimal production environment. -/
theorem C1_debug_flag_witness :
    envEmpty "DEBUG" = none ∧
    (resolveOverlay Overlay.development envEmpty ps0).toOption.map
      (fun r => r.1.DEBUG) = some true ∧
    (resolveOverlay Overlay.production envProd ps0).toOption.map
      (fun r => r.1.DEBUG) = some false := by
  refine ⟨rfl, ?_, ?_⟩
  · obtain ⟨r, hr⟩ : ∃ r,
        resolveOverlay Overlay.development envEmpty ps0 = Except.ok r :=
      ⟨_, rfl⟩
    rw [hr]
    exact congrArg some (C1_debug_flag.1 envEmpty ps0 r rfl hr)
  · obtain ⟨r, hr⟩ : ∃ r,
        resolveOverlay Overlay.production envProd ps0 = Except.ok r :=
      ⟨_, rfl⟩
    rw [hr]
    exact congrArg some (C1_debug_flag.2 envProd ps0 r hr)

-- ==========================================================================
-- C2
-- ==========================================================================

/-- C2: under any environment bindings, the assembled route table contains
the debug-toolbar, silk and static/media serving routes when the development
overlay resolved, and none of them when the production overlay resolved; the
table is a pure function of the resolved configuration, so the exclusion is
decided at assembly time. -/
theorem C2_debug_routes :
    (∀ (env : Env) (ps : ProcState) (r : Settings × List Effect),
        resolveOverlay Overlay.development env ps = Except.ok r →
        (((urlpatterns r.1).map RouteEntry.handler).contains
            "debug_toolbar.urls" = true ∧
         ((urlpatterns r.1).map RouteEntry.handler).contains
            "silk.urls" = true ∧
         ((urlpatterns r.1).map RouteEntry.handler).contains
            "django.views.static.serve" = true)) ∧
    (∀ (env : Env) (ps : ProcState) (r : Settings × List Effect),
        resolveOverlay Overlay.production env ps = Except.ok r →
        (urlpatterns r.1 = mainUrlpatterns ∧
         ((urlpatterns r.1).map RouteEntry.handler).contains
            "debug_toolbar.urls" = false ∧
         ((urlpatterns r.1).map RouteEntry.handler).contains
            "silk.urls" = false ∧
         ((urlpatterns r.1).map RouteEntry.handler).contains
            "django.views.static.serve" = false)) := by
  constructor
  · intro env ps r h
    have hd := (dev_resolved env ps r h).1
    rw [urlpatterns_handlers, hd]
    exact ⟨rfl, rfl, rfl⟩
  · intro env ps r h
    have hd := (prod_resolved env r h).1
    have hu : urlpatterns r.1 = mainUrlpatterns := by
      simp [urlpatterns, hd]
    rw [hu]
    exact ⟨rfl, rfl, rfl, rfl⟩

/-- Witness for C2_debug_routes: concrete development and production
resolutions. -/
theorem C2_debug_routes_witness :
    (resolveOverlay Overlay.development envEmpty ps0).toOption.map
      (fun r => ((urlpatterns r.1).map RouteEntry.handler).contains
        "debug_toolbar.urls") = some true ∧
    (resolveOverlay Overlay.production envProd ps0).toOption.map
      (fun r => urlpatterns r.1) = some mainUrlpatterns := by
  constructor
  · obtain ⟨r, hr⟩ : ∃ r,
        resolveOverlay Overlay.development envEmpty ps0 = Except.ok r :=
      ⟨_, rfl⟩
    rw [hr]
    exact congrArg some ((C2_debug_routes.1 envEmpty ps0 r hr).1)
  · obtain ⟨r, hr⟩ : ∃ r,
        resolveOverlay Overlay.production envProd ps0 = Except.ok r :=
      ⟨_, rfl⟩
    rw [hr]
    exact congrArg some ((C2_debug_routes.2 envProd ps0 r hr).1)

-- ==========================================================================
-- C5
-- ==========================================================================

/-- C5: when an overlay replaces or adds only some sub-keys of the cache
options map, the sibling sub-keys keep their base values: a (non-test)
development resolution adds IGNORE_EXCEPTIONS = true while CLIENT_CLASS,
SERIALIZER and COMPRESSOR keep their base values; a production resolution
replaces CONNECTION_POOL_KWARGS and sets IGNORE_EXCEPTIONS = false while the
same three siblings keep their base values. -/
theorem C5_partial_merge :
    (∀ (env : Env) (d : Bool) (r : Settings × List Effect),
        resolveOverlay Overlay.development env ⟨d, false⟩ = Except.ok r →
        (getKey (cacheOptions r.1) "CLIENT_CLASS" =
            some (Value.str "django_redis.client.DefaultClient") ∧
         getKey (cacheOptions r.1) "SERIALIZER" =
            some (Value.str "django_redis.serializers.json.JSONSerializer") ∧
         getKey (cacheOptions r.1) "COMPRESSOR" =
            some (Value.str "django_redis.compressors.zlib.ZlibCompressor") ∧
         getKey (cacheOptions r.1) "IGNORE_EXCEPTIONS" =
            some (Value.bool true))) ∧
    (∀ (env : Env) (ps : ProcState) (r : Settings × List Effect),
        resolveOverlay Overlay.production env ps = Except.ok r →
        (getKey (cacheOptions r.1) "CLIENT_CLASS" =
            some (Value.str "django_redis.client.DefaultClient") ∧
         getKey (cacheOptions r.1) "SERIALIZER" =
            some (Value.str "django_redis.serializers.json.JSONSerializer") ∧
         getKey (cacheOptions r.1) "COMPRESSOR" =
            some (Value.str "django_redis.compressors.zlib.ZlibCompressor") ∧
         getKey (cacheOptions r.1) "IGNORE_EXCEPTIONS" =
            some (Value.bool false))) := by
  constructor
  · intro env d r h
    exact dev_cacheOptions env d r h
  · intro env ps r h
    have hp := prod_resolved env r h
    exact ⟨hp.2.2.2.1, hp.2.2.2.2.1, hp.2.2.2.2.2.1, hp.2.2.2.2.2.2⟩

/-- Witness for C5_partial_merge: concrete development and production
resolutions. -/
theorem C5_partial_merge_witness :
    (resolveOverlay Overlay.development envEmpty ⟨false, false⟩).toOption.map
      (fun r => getKey (cacheOptions r.1) "CLIENT_CLASS") =
      some (some (Value.str "django_redis.client.DefaultClient")) ∧
    (resolveOverlay Overlay.development envEmpty ⟨false, false⟩).toOption.map
      (fun r => getKey (cacheOptions r.1) "IGNORE_EXCEPTIONS") =
      some (some (Value.bool true)) ∧
    (resolveOverlay Overlay.production envProd ps0).toOption.map
      (fun r => getKey (cacheOptions r.1) "IGNORE_EXCEPTIONS") =
      some (some (Value.bool false)) := by
  refine ⟨?_, ?_, ?_⟩
  · obtain ⟨r, hr⟩ : ∃ r,
        resolveOverlay Overlay.development envEmpty ⟨false, false⟩ =
          Except.ok r := ⟨_, rfl⟩
    rw [hr]
    exact congrArg some ((C5_partial_merge.1 envEmpty false r hr).1)
  · obtain ⟨r, hr⟩ : ∃ r,
        resolveOverlay Overlay.development envEmpty ⟨false, false⟩ =
          Except.ok r := ⟨_, rfl⟩
    rw [hr]
    exact congrArg some ((C5_partial_merge.1 envEmpty false r hr).2.2.2)
  · obtain ⟨r, hr⟩ : ∃ r,
        resolveOverlay Overlay.production envProd ps0 = Except.ok r :=
      ⟨_, rfl⟩
    rw [hr]
    exact congrArg some ((C5_partial_merge.2 envProd ps0 r hr).2.2.2)

-- ==========================================================================
-- C6 (corrected): production initialises the monitoring SDK at resolution
-- ==========================================================================

/-- C6 counterexample: resolving the production overlay with a non-empty
SENTRY_DSN binding performs the Sentry monitoring-SDK initialisation as part
of resolution — the effect list is non-empty, so resolution is not free of
process mutation for every binding set. -/
theorem C6_counterexample_sentry_init :
    (resolveOverlay Overlay.production envProdSentry ps0).toOption.map
      (fun r => r.2) =
      some [Effect.sentryInit "https://key@sentry.example/1"] ∧
    some [Effect.sentryInit "https://key@sentry.example/1"] ≠
      some ([] : List Effect) :=
  ⟨rfl, by decide⟩

/-- C6 amended: resolution performs no side effect except that the
production overlay initialises the Sentry SDK exactly when the SENTRY_DSN
binding resolves to a non-empty string. -/
theorem C6_amended_effects :
    ∀ (o : Overlay) (env : Env) (ps : ProcState) (r : Settings × List Effect),
      resolveOverlay o env ps = Except.ok r →
      r.2 = (if o = Overlay.production ∧ configStrD env "SENTRY_DSN" "" ≠ ""
        then [Effect.sentryInit (configStrD env "SENTRY_DSN" "")] else []) := by
  intro o env ps r h
  cases o with
  | development =>
    rw [(dev_resolved env ps r h).2.2.2]
    simp
  | production =>
    rw [(prod_resolved env r h).2.2.1]
    by_cases hd : configStrD env "SENTRY_DSN" "" = ""
    · simp [hd]
    · simp [hd]

/-- Witness for C6_amended_effects at the concrete production environment
with a Sentry DSN. -/
theorem C6_amended_effects_witness :
    (resolveOverlay Overlay.production envProdSentry ps0).toOption.map
      (fun r => r.2) =
      some (if Overlay.production = Overlay.production ∧
          configStrD envProdSentry "SENTRY_DSN" "" ≠ ""
        then [Effect.sentryInit (configStrD envProdSentry "SENTRY_DSN" "")]
        else []) := by
  obtain ⟨r, hr⟩ : ∃ r,
      resolveOverlay Overlay.production envProdSentry ps0 = Except.ok r :=
    ⟨_, rfl⟩
  rw [hr]
  exact congrArg some
    (C6_amended_effects Overlay.production envProdSentry ps0 r hr)

-- ==========================================================================
-- C10
-- ==========================================================================

/-- C10: under the development overlay, for every environment-binding set,
the resolved configuration has CORS_ALLOW_ALL_ORIGINS = true and the fixed
four-element localhost origin list, regardless of the corresponding
bindings; in the base set these resolve (absent their bindings) to false and
the two-element default list. -/
theorem C10_dev_cors :
    (∀ (env : Env) (ps : ProcState) (r : Settings × List Effect),
        resolveOverlay Overlay.development env ps = Except.ok r →
        r.1.CORS_ALLOW_ALL_ORIGINS = true ∧
        r.1.CORS_ALLOWED_ORIGINS =
          ["http://localhost:3000", "http://127.0.0.1:3000",
           "http://localhost:5173", "http://127.0.0.1:5173"]) ∧
    (∀ (env : Env) (b : Settings),
        env "CORS_ALLOW_ALL_ORIGINS" = none →
        env "CORS_ALLOWED_ORIGINS" = none →
        resolveBase env = Except.ok b →
        b.CORS_ALLOW_ALL_ORIGINS = false ∧
        b.CORS_ALLOWED_ORIGINS =
          ["http://localhost:3000", "http://127.0.0.1:3000"]) := by
  constructor
  · intro env ps r h
    exact ⟨(dev_resolved env ps r h).2.1, (dev_resolved env ps r h).2.2.1⟩
  · intro env b h1 h2 h
    simp only [resolveBase, bind_eq_ok, pure_eq_ok, Except.ok.injEq] at h
    obtain ⟨debug, hdebug, ct, hct, sa, hsa, cc, hcc, ca, hca, hb⟩ := h
    subst hb
    simp only [configBoolD, h1, Except.ok.injEq] at hca
    constructor
    · show ca = false
      exact hca.symm
    · show configListD env "CORS_ALLOWED_ORIGINS"
        "http://localhost:3000,http://127.0.0.1:3000" = _
      simp only [configListD, h2]
      rfl

/-- Witness for C10_dev_cors at the empty environment. -/
theorem C10_dev_cors_witness :
    (resolveOverlay Overlay.development envEmpty ps0).toOption.map
      (fun r => r.1.CORS_ALLOWED_ORIGINS) =
      some ["http://localhost:3000", "http://127.0.0.1:3000",
            "http://localhost:5173", "http://127.0.0.1:5173"] ∧
    (resolveBase envEmpty).toOption.map (fun b => b.CORS_ALLOW_ALL_ORIGINS) =
      some false := by
  constructor
  · obtain ⟨r, hr⟩ : ∃ r,
        resolveOverlay Overlay.development envEmpty ps0 = Except.ok r :=
      ⟨_, rfl⟩
    rw [hr]
    exact congrArg some ((C10_dev_cors.1 envEmpty ps0 r hr).2)
  · obtain ⟨b, hb⟩ : ∃ b, resolveBase envEmpty = Except.ok b := ⟨_, rfl⟩
    rw [hb]
    exact congrArg some ((C10_dev_cors.2 envEmpty b rfl rfl hb).1)

-- ==========================================================================
-- C4 (corrected): resolution depends on more than the overlay and bindings
-- ==========================================================================

/-- C4 counterexample: the same overlay and the same (empty) binding set
resolve to different configuration sets depending on whether `/.dockerenv`
exists on the filesystem — the development module rewrites the database host
on Docker detection, so the result does not depend on the overlay and the
bindings alone. -/
theorem C4_counterexample_dockerenv :
    resolveOverlay Overlay.development envEmpty ⟨true, false⟩ ≠
      resolveOverlay Overlay.development envEmpty ⟨false, false⟩ := by
  intro h
  have e1 : (resolveOverlay Overlay.development envEmpty
        ⟨true, false⟩).toOption.map
      (fun r => getKey r.1.DATABASES_default "HOST") =
      some (some (Value.str "pgbouncer")) := rfl
  have e2 : (resolveOverlay Overlay.development envEmpty
        ⟨false, false⟩).toOption.map
      (fun r => getKey r.1.DATABASES_default "HOST") =
      some (some (Value.str "localhost")) := rfl
  rw [h] at e1
  have e3 := e1.symm.trans e2
  simp only [Option.some.injEq, Value.str.injEq] at e3
  exact absurd e3 (by decide)

/-- C4 amended: resolution is deterministic in the overlay, the values of
the binding keys it reads, and the process state (Docker detection and
test-harness detection): two environments agreeing on every key in
`bindingKeys` resolve identically under the same overlay and process
state. -/
theorem C4_amended_determinism (env1 env2 : Env)
    (h : ∀ k ∈ bindingKeys, env1 k = env2 k) (o : Overlay) (ps : ProcState) :
    resolveOverlay o env1 ps = resolveOverlay o env2 ps := by
  have h01 : env1 "SECRET_KEY" = env2 "SECRET_KEY" := h _ (by decide)
  have h02 : env1 "DEBUG" = env2 "DEBUG" := h _ (by decide)
  have h03 : env1 "ALLOWED_HOSTS" = env2 "ALLOWED_HOSTS" := h _ (by decide)
  have h04 : env1 "DATABASE_NAME" = env2 "DATABASE_NAME" := h _ (by decide)
  have h05 : env1 "DATABASE_USER" = env2 "DATABASE_USER" := h _ (by decide)
  have h06 : env1 "DATABASE_PASSWORD" = env2 "DATABASE_PASSWORD" := h _ (by decide)
  have h07 : env1 "DATABASE_HOST" = env2 "DATABASE_HOST" := h _ (by decide)
  have h08 : env1 "DATABASE_PORT" = env2 "DATABASE_PORT" := h _ (by decide)
  have h09 : env1 "REDIS_URL" = env2 "REDIS_URL" := h _ (by decide)
  have h10 : env1 "CACHE_TTL" = env2 "CACHE_TTL" := h _ (by decide)
  have h11 : env1 "SESSION_CACHE_TTL" = env2 "SESSION_CACHE_TTL" := h _ (by decide)
  have h12 : env1 "CORS_ALLOWED_ORIGINS" = env2 "CORS_ALLOWED_ORIGINS" := h _ (by decide)
  have h13 : env1 "CORS_ALLOW_CREDENTIALS" = env2 "CORS_ALLOW_CREDENTIALS" := h _ (by decide)
  have h14 : env1 "CORS_ALLOW_ALL_ORIGINS" = env2 "CORS_ALLOW_ALL_ORIGINS" := h _ (by decide)
  have h15 : env1 "STATIC_URL" = env2 "STATIC_URL" := h _ (by decide)
  have h16 : env1 "MEDIA_URL" = env2 "MEDIA_URL" := h _ (by decide)
  have h17 : env1 "EMAIL_BACKEND" = env2 "EMAIL_BACKEND" := h _ (by decide)
  have h18 : env1 "ENABLE_SILK_PROFILING" = env2 "ENABLE_SILK_PROFILING" := h _ (by decide)
  have h19 : env1 "USE_PGBOUNCER" = env2 "USE_PGBOUNCER" := h _ (by decide)
  have h20 : env1 "PGBOUNCER_PORT" = env2 "PGBOUNCER_PORT" := h _ (by decide)
  have h21 : env1 "DOCKER_ENV" = env2 "DOCKER_ENV" := h _ (by decide)
  have h22 : env1 "CELERY_EAGER" = env2 "CELERY_EAGER" := h _ (by decide)
  have h23 : env1 "SECURE_SSL_REDIRECT" = env2 "SECURE_SSL_REDIRECT" := h _ (by decide)
  have h24 : env1 "SECURE_HSTS_SECONDS" = env2 "SECURE_HSTS_SECONDS" := h _ (by decide)
  have h25 : env1 "SECURE_HSTS_INCLUDE_SUBDOMAINS" = env2 "SECURE_HSTS_INCLUDE_SUBDOMAINS" := h _ (by decide)
  have h26 : env1 "SECURE_HSTS_PRELOAD" = env2 "SECURE_HSTS_PRELOAD" := h _ (by decide)
  have h27 : env1 "USE_S3" = env2 "USE_S3" := h _ (by decide)
  have h28 : env1 "AWS_ACCESS_KEY_ID" = env2 "AWS_ACCESS_KEY_ID" := h _ (by decide)
  have h29 : env1 "AWS_SECRET_ACCESS_KEY" = env2 "AWS_SECRET_ACCESS_KEY" := h _ (by decide)
  have h30 : env1 "AWS_STORAGE_BUCKET_NAME" = env2 "AWS_STORAGE_BUCKET_NAME" := h _ (by decide)
  have h31 : env1 "AWS_S3_REGION_NAME" = env2 "AWS_S3_REGION_NAME" := h _ (by decide)
  have h32 : env1 "AWS_S3_CUSTOM_DOMAIN" = env2 "AWS_S3_CUSTOM_DOMAIN" := h _ (by decide)
  have h33 : env1 "SENTRY_DSN" = env2 "SENTRY_DSN" := h _ (by decide)
  cases o <;>
    simp only [resolveOverlay, resolveDevelopment, resolveProduction,
      resolveBase, prodS3, configBoolD, configIntD, configStrD, configStrReq,
      configListD, configListReq, h01, h02, h03, h04, h05, h06, h07, h08,
      h09, h10, h11, h12, h13, h14, h15, h16, h17, h18, h19, h20, h21, h22,
      h23, h24, h25, h26, h27, h28, h29, h30, h31, h32, h33]

/-- Witness for C4_amended_determinism: `envEmpty` and `envUnrelated` agree
on every read binding key and resolve identically. -/
theorem C4_amended_determinism_witness :
    (∀ k ∈ bindingKeys, envEmpty k = envUnrelated k) ∧
    resolveOverlay Overlay.development envEmpty ps0 =
      resolveOverlay Overlay.development envUnrelated ps0 :=
  ⟨by decide,
   C4_amended_determinism envEmpty envUnrelated (by decide)
     Overlay.development ps0⟩

-- ==========================================================================
-- C9
-- ==========================================================================

theorem configListReq_error (env : Env) (k : String) (h : env k = none) :
    configListReq env k = Except.error (ConfigError.undefinedValue k) := by
  simp [configListReq, configStrReq, h, Except.map]

theorem configStrReq_error (env : Env) (k : String) (h : env k = none) :
    configStrReq env k = Except.error (ConfigError.undefinedValue k) := by
  simp [configStrReq, h]

/-- With S3 selected and any credential binding absent, the S3 block fails. -/
theorem prodS3_error (env : Env) (s : Settings) (v : String)
    (hv : env "USE_S3" = some v) (hb : castBool v = some true)
    (hmiss : env "AWS_ACCESS_KEY_ID" = none ∨
      env "AWS_SECRET_ACCESS_KEY" = none ∨
      env "AWS_STORAGE_BUCKET_NAME" = none) :
    ∃ e, prodS3 env s = Except.error e := by
  simp only [prodS3]
  have hu : configBoolD env "USE_S3" false = Except.ok true := by
    simp [configBoolD, hv, hb]
  rw [hu, ok_bind, if_pos rfl]
  rcases hmiss with hm | hm | hm
  · rw [configStrReq_error env _ hm]
    exact ⟨_, rfl⟩
  · apply exists_error_bind
    intro awsKey
    rw [configStrReq_error env _ hm]
    exact ⟨_, rfl⟩
  · apply exists_error_bind
    intro awsKey
    apply exists_error_bind
    intro awsSecret
    rw [configStrReq_error env _ hm]
    exact ⟨_, rfl⟩

/-- C9: under the production overlay, resolution aborts at load time when a
required binding with no default is absent — ALLOWED_HOSTS,
CORS_ALLOWED_ORIGINS or DATABASE_HOST unset, or USE_S3 true with an AWS
credential binding (access key, secret key or bucket name) unset. -/
theorem C9_production_required_bindings :
    ∀ (env : Env) (ps : ProcState),
      (env "ALLOWED_HOSTS" = none →
        ∃ e, resolveOverlay Overlay.production env ps = Except.error e) ∧
      (env "CORS_ALLOWED_ORIGINS" = none →
        ∃ e, resolveOverlay Overlay.production env ps = Except.error e) ∧
      (env "DATABASE_HOST" = none →
        ∃ e, resolveOverlay Overlay.production env ps = Except.error e) ∧
      (∀ v, env "USE_S3" = some v → castBool v = some true →
        ((env "AWS_ACCESS_KEY_ID" = none →
            ∃ e, resolveOverlay Overlay.production env ps = Except.error e) ∧
         (env "AWS_SECRET_ACCESS_KEY" = none →
            ∃ e, resolveOverlay Overlay.production env ps = Except.error e) ∧
         (env "AWS_STORAGE_BUCKET_NAME" = none →
            ∃ e, resolveOverlay Overlay.production env ps = Except.error e))) := by
  intro env ps
  refine ⟨?_, ?_, ?_, ?_⟩
  · intro h
    simp only [resolveOverlay, resolveProduction]
    apply exists_error_bind
    intro base
    rw [configListReq_error env _ h]
    exact ⟨_, rfl⟩
  · intro h
    simp only [resolveOverlay, resolveProduction]
    apply exists_error_bind
    intro base
    apply exists_error_bind
    intro allowedHosts
    apply exists_error_bind
    intro ssl
    apply exists_error_bind
    intro hsec
    apply exists_error_bind
    intro hsub
    apply exists_error_bind
    intro hpre
    apply exists_error_bind
    intro dbHost
    apply exists_error_bind
    intro s3
    rw [configListReq_error env _ h]
    exact ⟨_, rfl⟩
  · intro h
    simp only [resolveOverlay, resolveProduction]
    apply exists_error_bind
    intro base
    apply exists_error_bind
    intro allowedHosts
    apply exists_error_bind
    intro ssl
    apply exists_error_bind
    intro hsec
    apply exists_error_bind
    intro hsub
    apply exists_error_bind
    intro hpre
    rw [configStrReq_error env _ h]
    exact ⟨_, rfl⟩
  · intro v hv hb
    refine ⟨?_, ?_, ?_⟩ <;>
      (intro h
       simp only [resolveOverlay, resolveProduction]
       apply exists_error_bind
       intro base
       apply exists_error_bind
       intro allowedHosts
       apply exists_error_bind
       intro ssl
       apply exists_error_bind
       intro hsec
       apply exists_error_bind
       intro hsub
       apply exists_error_bind
       intro hpre
       apply exists_error_bind
       intro dbHost
       apply exists_error_bind_left)
    · exact prodS3_error env _ v hv hb (Or.inl h)
    · exact prodS3_error env _ v hv hb (Or.inr (Or.inl h))
    · exact prodS3_error env _ v hv hb (Or.inr (Or.inr h))

/-- Witness for C9_production_required_bindings: the concrete production
environment with `USE_S3=True` and no AWS access key fails to resolve. -/
theorem C9_production_required_bindings_witness :
    envS3Missing "USE_S3" = some "True" ∧ castBool "True" = some true ∧
    envS3Missing "AWS_ACCESS_KEY_ID" = none ∧
    (resolveOverlay Overlay.production envS3Missing ps0).isOk = false := by
  refine ⟨rfl, rfl, rfl, ?_⟩
  obtain ⟨e, he⟩ :=
    (((C9_production_required_bindings envS3Missing ps0).2.2.2) "True" rfl
      rfl).1 rfl
  rw [he]
  rfl
